import Mathlib

/-!
# SimplePicoNetworking: a single-connection TCP adapter over lwIP

Shallow embedding of `SPNetworking.h` / `SPNetworking.cpp`.

* Bytes are natural numbers; a C array is the list of its bytes.  A write that
  lands beyond the end of an array makes the list longer than the array, so an
  out-of-bounds write is visible as a length above the declared capacity.
* A pointer to a protocol control block is `Option Nat` (`none` is `NULL`).
* The answers of the lwIP stack (`tcp_write`, `tcp_close`, ...) are arguments of
  the function that asks for them; every call made to the stack is appended to
  the ghost field `lwip_calls`.
* `printf` output is not modelled.
-/

namespace SPNet

/-! ## Constants -/

/-- Source: `#define BUF_SIZE 2048`. -/
def BUF_SIZE : Nat := 2048

/-- The lwIP error type `err_t` (a signed 8-bit integer in lwIP). -/
abbrev err_t := Int

/-- The lwIP code `ERR_OK` (lwip/err.h). -/
def ERR_OK : err_t := 0
/-- The lwIP code `ERR_MEM`, out of memory. -/
def ERR_MEM : err_t := -1
/-- The lwIP code `ERR_BUF`. -/
def ERR_BUF : err_t := -2
/-- The lwIP code `ERR_TIMEOUT`. -/
def ERR_TIMEOUT : err_t := -3
/-- The lwIP code `ERR_RTE`. -/
def ERR_RTE : err_t := -4
/-- The lwIP code `ERR_INPROGRESS`. -/
def ERR_INPROGRESS : err_t := -5
/-- The lwIP code `ERR_VAL`, illegal value. -/
def ERR_VAL : err_t := -6
/-- The lwIP code `ERR_WOULDBLOCK`. -/
def ERR_WOULDBLOCK : err_t := -7
/-- The lwIP code `ERR_USE`. -/
def ERR_USE : err_t := -8
/-- The lwIP code `ERR_ALREADY`. -/
def ERR_ALREADY : err_t := -9
/-- The lwIP code `ERR_ISCONN`. -/
def ERR_ISCONN : err_t := -10
/-- The lwIP code `ERR_CONN`. -/
def ERR_CONN : err_t := -11
/-- The lwIP code `ERR_IF`, low-level interface error. -/
def ERR_IF : err_t := -12
/-- The lwIP code `ERR_ABRT`, connection aborted. -/
def ERR_ABRT : err_t := -13
/-- The lwIP code `ERR_RST`, connection reset. -/
def ERR_RST : err_t := -14
/-- The lwIP code `ERR_CLSD`, connection closed. -/
def ERR_CLSD : err_t := -15
/-- The lwIP code `ERR_ARG`, illegal argument. -/
def ERR_ARG : err_t := -16

/-! ## C library routines on byte lists -/

/-- C `strlen`: the number of bytes before the first zero byte.  The end of the
list stands for the terminator of an array that holds no zero byte. -/
def strlen : List Nat → Nat
  | [] => 0
  | 0 :: _ => 0
  | (_ + 1) :: rest => strlen rest + 1

/-- Store `data` into `buf` from index `off` on.  Bytes that land at or beyond
the length of `buf` make the result longer than `buf`. -/
def store (buf : List Nat) (off : Nat) (data : List Nat) : List Nat :=
  buf.take off ++ data ++ buf.drop (off + data.length)

/-- C `memcpy(dst, src, n)`: the first `n` bytes of `src` go to the start of `dst`. -/
def memcpy (dst src : List Nat) (n : Nat) : List Nat :=
  store dst 0 (src.take n)

/-- C `memset(dst, c, n)`: the first `n` bytes of `dst` become `c`. -/
def memset (dst : List Nat) (c : Nat) (n : Nat) : List Nat :=
  store dst 0 (List.replicate n c)

/-- C `strcpy(dst, src)`: the string in `src` and its terminating zero byte go
to the start of `dst`. -/
def strcpy (dst src : List Nat) : List Nat :=
  store dst 0 (src.take (strlen src) ++ [0])

/-! ## Data model -/

/-- Source: `enum NET_MODE_T`. -/
inductive NET_MODE_T where
  | CLIENT_MODE
  | SERVER_MODE
  deriving DecidableEq

/-- The callbacks this file registers with lwIP. -/
inductive Callback where
  | tcp_server_accept
  | tcp_con_poll
  | tcp_con_sent
  | tcp_con_recv
  | tcp_con_err
  | tcp_client_connected
  deriving DecidableEq

/-- A call made to the lwIP stack, with the values its parameters receive.
lwIP declares the interval of `tcp_poll` as `u8_t` and the port of
`tcp_connect` as `u16_t`: a wider argument is reduced modulo 256 or 65536 by
the C conversion at the call.  A callback argument of `none` is `NULL`; in
`tcp_arg` the flag tells whether the connection state (`true`) or `NULL`
(`false`) is passed. -/
inductive LwipCall where
  | tcp_new_ip_type
  | tcp_bind (pcb : Option Nat) (port : Nat)
  | tcp_listen_with_backlog (pcb : Option Nat) (backlog : Nat)
  | tcp_accept (pcb : Option Nat) (fn : Option Callback)
  | tcp_connect (pcb : Option Nat) (addr : Nat) (port : Nat) (fn : Option Callback)
  | tcp_arg (pcb : Option Nat) (state : Bool)
  | tcp_poll (pcb : Option Nat) (fn : Option Callback) (interval : Nat)
  | tcp_sent (pcb : Option Nat) (fn : Option Callback)
  | tcp_recv (pcb : Option Nat) (fn : Option Callback)
  | tcp_err (pcb : Option Nat) (fn : Option Callback)
  | tcp_write (pcb : Option Nat) (frame : List Nat) (len : Nat)
  | tcp_recved (pcb : Option Nat) (len : Nat)
  | tcp_close (pcb : Option Nat)
  | tcp_abort (pcb : Option Nat)
  | pbuf_free
  deriving DecidableEq

/-- An lwIP packet buffer chain as the handler sees it: its payload bytes.
The field `tot_len` of lwIP is a `u16_t`, so the payload is shorter than 65536. -/
structure pbuf where
  payload : List Nat
  tot_len_lt : payload.length < 65536

/-- The field `p->tot_len`. -/
def pbuf.tot_len (p : pbuf) : Nat := p.payload.length

/-- The lwIP routine `pbuf_copy_partial(p, dataptr, len, 0)`, with `dataptr`
pointing at index `off` of `buf`: copies `len` bytes of the payload, or all of
it when it is shorter, and returns the buffer and the number of bytes copied. -/
def pbuf_copy_partial (p : pbuf) (buf : List Nat) (off len : Nat) : List Nat × Nat :=
  (store buf off (p.payload.take len), (p.payload.take len).length)

/-- Source: `struct TCP_CON_T_`. -/
structure TCP_CON_T where
  host_pcb : Option Nat
  remote_pcb : Option Nat
  remote_addr : Nat
  buffer_sent : List Nat
  buffer_recv : List Nat
  recv_len : Nat
  poll_time : Nat
  incoming : Bool
  error : err_t
  deriving DecidableEq

/-- Source: `class SPNetworking`, with the connection state it owns (`*state`)
held by value, and the ghost log of the calls made to lwIP. -/
structure SPNetworking where
  ip_adr : List Nat
  tcp_port : Nat
  state : TCP_CON_T
  tmp_buf : List Nat
  host_mode : NET_MODE_T
  lwip_calls : List LwipCall
  deriving DecidableEq

/-- The arrays of the adapter have their declared sizes:
`buffer_sent[BUF_SIZE]`, `buffer_recv[BUF_SIZE]`, `tmp_buf[BUF_SIZE]`. -/
def SPNetworking.sized (w : SPNetworking) : Prop :=
  w.state.buffer_sent.length = BUF_SIZE ∧ w.state.buffer_recv.length = BUF_SIZE ∧
    w.tmp_buf.length = BUF_SIZE

instance (w : SPNetworking) : Decidable w.sized := by
  unfold SPNetworking.sized; infer_instance

/-- Append calls to the ghost log. -/
def SPNetworking.call (w : SPNetworking) (cs : List LwipCall) : SPNetworking :=
  { w with lwip_calls := w.lwip_calls ++ cs }

/-! ## Blocking API -/

/-- Source: `SPNetworking::status`. -/
def status (w : SPNetworking) : Bool :=
  if w.state.error = ERR_OK then true else false

/-- Source: `SPNetworking::end_con`.  `close_res` is what `tcp_close` answers. -/
def end_con (close_res : err_t) (w : SPNetworking) : err_t × SPNetworking :=
  match w.state.remote_pcb with
  | none => (ERR_OK, w)
  | some pcb =>
    let w1 := w.call [LwipCall.tcp_arg (some pcb) false,
                      LwipCall.tcp_poll (some pcb) none 0,
                      LwipCall.tcp_sent (some pcb) none,
                      LwipCall.tcp_recv (some pcb) none,
                      LwipCall.tcp_err (some pcb) none,
                      LwipCall.tcp_close (some pcb)]
    let w2 := if close_res ≠ ERR_OK then w1.call [LwipCall.tcp_abort (some pcb)] else w1
    (close_res, { w2 with state := { w2.state with remote_pcb := none } })

/-- Source: `SPNetworking::read`.  The result is the content of `tmp_buf` the
returned pointer refers to, `none` for `NULL`. -/
def read (w : SPNetworking) : Option (List Nat) × SPNetworking :=
  if w.state.error ≠ ERR_OK then (none, w)
  else
    let t1 := memset w.tmp_buf 0 (w.state.recv_len + 1)
    let t2 := memcpy t1 w.state.buffer_recv w.state.recv_len
    (some t2, { w with tmp_buf := t2, state := { w.state with recv_len := 0, incoming := false } })

/-- Source: `SPNetworking::send`.  `message` is the array the caller passes;
`write_res` and `close_res` are what `tcp_write` and `tcp_close` answer. -/
def send (message : List Nat) (write_res close_res : err_t) (w : SPNetworking) :
    Bool × SPNetworking :=
  let msg_len := strlen message
  if msg_len > BUF_SIZE then (false, w)
  else
    let w1 := { w with state := { w.state with
                  buffer_sent := memcpy w.state.buffer_sent message msg_len } }
    let w2 := w1.call [LwipCall.tcp_write w1.state.remote_pcb
                        (w1.state.buffer_sent.take BUF_SIZE) BUF_SIZE]
    if write_res ≠ ERR_OK then
      let w3 := { w2 with state := { w2.state with error := write_res } }
      (false, (end_con close_res w3).2)
    else (true, w2)

/-- Source: `SPNetworking::error_handler`: the `switch` over `error`, one branch
per `case` label in the order of the source.  A branch that only prints
returns the adapter as it is; the branches `ERR_TIMEOUT`, `ERR_RST` and
`ERR_ARG` also assign `error = 0`.  There is no `default` label. -/
def error_handler (w : SPNetworking) : SPNetworking :=
  if w.state.error = ERR_OK then w
  else if w.state.error = ERR_MEM then w
  else if w.state.error = ERR_BUF then w
  else if w.state.error = ERR_TIMEOUT then { w with state := { w.state with error := 0 } }
  else if w.state.error = ERR_RTE then w
  else if w.state.error = ERR_INPROGRESS then w
  else if w.state.error = ERR_VAL then w
  else if w.state.error = ERR_WOULDBLOCK then w
  else if w.state.error = ERR_USE then w
  else if w.state.error = ERR_ALREADY then w
  else if w.state.error = ERR_ISCONN then w
  else if w.state.error = ERR_CONN then w
  else if w.state.error = ERR_IF then w
  else if w.state.error = ERR_ABRT then w
  else if w.state.error = ERR_RST then { w with state := { w.state with error := 0 } }
  else if w.state.error = ERR_CLSD then w
  else if w.state.error = ERR_ARG then { w with state := { w.state with error := 0 } }
  else w

/-- One pass through the body of the `do ... while` loop of
`SPNetworking::listen` with no event firing in it: `some b` when the call
returns `b` in this pass, `none` when the loop goes round again. -/
def listen_iter (w : SPNetworking) : Option Bool × SPNetworking :=
  if w.state.error ≠ ERR_OK then (some false, error_handler w)
  else if w.state.incoming then (some true, w)
  else (none, w)

/-- Source: `SPNetworking::listen` while no event fires, run for at most `fuel`
passes of its loop; `none` when it is still waiting after them. -/
def listen : Nat → SPNetworking → Option (Bool × SPNetworking)
  | 0, _ => none
  | fuel + 1, w =>
    match listen_iter w with
    | (some b, w1) => some (b, w1)
    | (none, w1) => listen fuel w1

/-- Source: `SPNetworking::connect_to_wifi`; `wifi_res` is what
`cyw43_arch_wifi_connect_timeout_ms` answers. -/
def connect_to_wifi (wifi_res : Int) (w : SPNetworking) : err_t × SPNetworking :=
  if wifi_res ≠ 0 then (1, w) else (0, w)

/-! ## Event handlers -/

/-- Source: `tcp_con_poll`. -/
def tcp_con_poll (close_res : err_t) (w : SPNetworking) : err_t × SPNetworking :=
  end_con close_res { w with state := { w.state with error := ERR_TIMEOUT } }

/-- Source: `tcp_con_err`. -/
def tcp_con_err (err : err_t) (close_res : err_t) (w : SPNetworking) : SPNetworking :=
  (end_con close_res { w with state := { w.state with error := err } }).2

/-- Source: `tcp_con_recv`.  `p = none` is a null delivery.  On a non-null
delivery the model follows the source while `recv_len <= BUF_SIZE`: the copy
then stays inside `buffer_recv`.  With a larger `recv_len` the source writes
into the members that follow the array, which a list of bytes does not
represent, so every statement about a non-null delivery assumes the bound. -/
def tcp_con_recv (tpcb : Option Nat) (p : Option pbuf) (err : err_t) (w : SPNetworking) :
    err_t × SPNetworking :=
  match p with
  | none => (err, { w with state := { w.state with error := err } })
  | some pb =>
    let w1 :=
      if pb.tot_len > 0 then
        let buffer_left : Nat := (((BUF_SIZE : Int) - (w.state.recv_len : Int)) % 65536).toNat
        let r := pbuf_copy_partial pb w.state.buffer_recv w.state.recv_len
                  (if pb.tot_len > buffer_left then buffer_left else pb.tot_len)
        ({ w with state := { w.state with
              buffer_recv := r.1, recv_len := (w.state.recv_len + r.2) % 65536 } }).call
          [LwipCall.tcp_recved tpcb pb.tot_len]
      else w
    let w2 := w1.call [LwipCall.pbuf_free]
    (ERR_OK, { w2 with state := { w2.state with incoming := true } })

/-- Source: `tcp_con_sent`. -/
def tcp_con_sent (_len : Nat) (w : SPNetworking) : err_t × SPNetworking :=
  (ERR_OK, w)

/-- Source: `tcp_server_accept`.  The interval `state->poll_time * 2` is
computed in `int` and converted to the `u8_t` parameter of `tcp_poll`. -/
def tcp_server_accept (client_pcb : Option Nat) (err : err_t) (w : SPNetworking) :
    err_t × SPNetworking :=
  if err ≠ ERR_OK ∨ client_pcb = none ∨ w.state.remote_pcb ≠ none then (ERR_VAL, w)
  else
    let w1 := { w with state := { w.state with remote_pcb := client_pcb } }
    let w2 := w1.call [LwipCall.tcp_arg client_pcb true,
                       LwipCall.tcp_sent client_pcb (some Callback.tcp_con_sent),
                       LwipCall.tcp_recv client_pcb (some Callback.tcp_con_recv),
                       LwipCall.tcp_poll client_pcb (some Callback.tcp_con_poll)
                         ((w1.state.poll_time * 2) % 256),
                       LwipCall.tcp_err client_pcb (some Callback.tcp_con_err)]
    (ERR_OK, { w2 with state := { w2.state with incoming := true } })

/-- Source: `tcp_client_connected`. -/
def tcp_client_connected (err : err_t) (w : SPNetworking) : err_t × SPNetworking :=
  if err ≠ ERR_OK then (err, w) else (ERR_OK, w)

/-! ## Construction -/

/-- What the driver and the stack answer while the adapter is constructed:
the return value of `cyw43_arch_init`, the block `tcp_new_ip_type` allocates,
the result of `tcp_bind`, the block `tcp_listen_with_backlog` returns, the
address `ip4addr_aton` parses (`none` when it rejects the string) and the
result of `tcp_connect`. -/
structure StackInit where
  arch_init : Int
  new_pcb : Option Nat
  bind_res : err_t
  listen_pcb : Option Nat
  aton : Option Nat
  connect_res : err_t

/-- Source: `SPNetworking::SPNetworking`.  `raw` is the memory of the object and
of the `new TCP_CON_T` before the constructor body runs: a member the
constructor never assigns keeps the value it has in `raw`.  Only `incoming` and
`error` have default member initializers in `TCP_CON_T`.  The test
`if (!this->state)` is left out: `new` does not return `NULL`.  The result of
`tcp_connect` is dropped by the source, so `connect_res` has no effect. -/
def SPNetworking.construct (mode : NET_MODE_T) (ip : List Nat) (port poll : Int)
    (env : StackInit) (raw : SPNetworking) : SPNetworking :=
  let w0 : SPNetworking :=
    { raw with state := { raw.state with incoming := false, error := ERR_OK }, lwip_calls := [] }
  if env.arch_init ≠ 0 then w0
  else
    let w1 : SPNetworking :=
      { w0 with state := { w0.state with error := 0 },
                ip_adr := strcpy w0.ip_adr ip,
                tcp_port := (port % 65536).toNat,
                host_mode := mode }
    match mode with
    | NET_MODE_T.SERVER_MODE =>
      let pcb := env.new_pcb
      let w2 := w1.call [LwipCall.tcp_new_ip_type]
      let w3 := if pcb = none then { w2 with state := { w2.state with error := ERR_ABRT } } else w2
      let w4 := w3.call [LwipCall.tcp_bind pcb w3.tcp_port]
      let w5 := if env.bind_res ≠ 0 then { w4 with state := { w4.state with error := ERR_ABRT } }
                else w4
      let w6 := ({ w5 with state := { w5.state with host_pcb := env.listen_pcb } }).call
                  [LwipCall.tcp_listen_with_backlog pcb 1]
      let w7 :=
        if w6.state.host_pcb = none then
          let w6a := if pcb ≠ none then w6.call [LwipCall.tcp_close pcb] else w6
          { w6a with state := { w6a.state with error := ERR_ABRT } }
        else w6
      let w8 := { w7 with state := { w7.state with poll_time := (poll % 65536).toNat } }
      w8.call [LwipCall.tcp_arg w8.state.host_pcb true,
               LwipCall.tcp_accept w8.state.host_pcb (some Callback.tcp_server_accept)]
    | NET_MODE_T.CLIENT_MODE =>
      let w2 := { w1 with state := { w1.state with
                    remote_addr := env.aton.getD w1.state.remote_addr } }
      let w3 := ({ w2 with state := { w2.state with remote_pcb := env.new_pcb } }).call
                  [LwipCall.tcp_new_ip_type]
      let w4 := if w3.state.remote_pcb = none then
                  { w3 with state := { w3.state with error := ERR_ABRT } }
                else w3
      let w5 := w4.call [LwipCall.tcp_arg w4.state.remote_pcb true,
                         LwipCall.tcp_poll w4.state.remote_pcb (some Callback.tcp_con_poll)
                           (poll % 256).toNat,
                         LwipCall.tcp_sent w4.state.remote_pcb (some Callback.tcp_con_sent),
                         LwipCall.tcp_recv w4.state.remote_pcb (some Callback.tcp_con_recv),
                         LwipCall.tcp_err w4.state.remote_pcb (some Callback.tcp_con_err)]
      let w6 := { w5 with state := { w5.state with recv_len := 0 } }
      w6.call [LwipCall.tcp_connect w6.state.remote_pcb w6.state.remote_addr
                (port % 65536).toNat (some Callback.tcp_client_connected)]

/-! ## Runs of the adapter -/

/-- One thing that happens to a constructed adapter: the stack invokes an event
handler, or the caller invokes an operation.  Each carries the arguments of the
handler or operation and the answers the stack gives inside it.  `listen` is
one pass through the loop of `SPNetworking::listen`; the events that fire
while a call of `listen` waits are steps of their own between its passes. -/
inductive Op where
  | accept (client_pcb : Option Nat) (err : err_t)
  | recv (tpcb : Option Nat) (p : Option pbuf) (err : err_t)
  | sent (len : Nat)
  | poll (close_res : err_t)
  | err (e : err_t) (close_res : err_t)
  | connected (err : err_t)
  | listen
  | read
  | send (message : List Nat) (write_res close_res : err_t)
  | status
  | end_con (close_res : err_t)
  | connect_to_wifi (wifi_res : Int)

/-- The adapter after one step. -/
def step (w : SPNetworking) : Op → SPNetworking
  | Op.accept client_pcb err => (tcp_server_accept client_pcb err w).2
  | Op.recv tpcb p err => (tcp_con_recv tpcb p err w).2
  | Op.sent len => (tcp_con_sent len w).2
  | Op.poll close_res => (tcp_con_poll close_res w).2
  | Op.err e close_res => tcp_con_err e close_res w
  | Op.connected err => (tcp_client_connected err w).2
  | Op.listen => (listen_iter w).2
  | Op.read => (read w).2
  | Op.send message write_res close_res => (send message write_res close_res w).2
  | Op.status => w
  | Op.end_con close_res => (end_con close_res w).2
  | Op.connect_to_wifi wifi_res => (connect_to_wifi wifi_res w).2

/-- The adapter after a sequence of steps. -/
def run (w : SPNetworking) (ops : List Op) : SPNetworking :=
  ops.foldl step w

/-- The steps that record a code reported by the stack into `error`: a null
delivery, the poll/timeout handler, the fatal-error handler and a `send` whose
write fails. -/
def Op.records_error : Op → Bool
  | Op.recv _ none _ => true
  | Op.poll _ => true
  | Op.err _ _ => true
  | Op.send _ write_res _ => decide (write_res ≠ ERR_OK)
  | _ => false

/-- The error kinds Aborted, InterfaceError, Closed, OutOfMemory and
AlreadyInProgress (lwIP has two codes for the last: operation in progress and
already connecting). -/
def fatal_kind (e : err_t) : Prop :=
  e = ERR_ABRT ∨ e = ERR_IF ∨ e = ERR_CLSD ∨ e = ERR_MEM ∨ e = ERR_INPROGRESS ∨ e = ERR_ALREADY

instance (e : err_t) : Decidable (fatal_kind e) := by
  unfold fatal_kind; infer_instance

/-- A concrete adapter used in examples: a server with an accepted connection
on block 1, every buffer byte equal to `fill`, `recv_len` bytes pending. -/
def sample (fill : Nat) (recv_len : Nat) (error : err_t) : SPNetworking :=
  { ip_adr := List.replicate 15 0
    tcp_port := 5000
    state :=
      { host_pcb := some 0
        remote_pcb := some 1
        remote_addr := 0
        buffer_sent := List.replicate BUF_SIZE fill
        buffer_recv := List.replicate BUF_SIZE fill
        recv_len := recv_len
        poll_time := 5
        incoming := false
        error := error }
    tmp_buf := List.replicate BUF_SIZE fill
    host_mode := NET_MODE_T.SERVER_MODE
    lwip_calls := [] }


/-- The address string 127.0.0.1 (the default of the constructor), as bytes
followed by the terminator. -/
def loopback : List Nat := [49, 50, 55, 46, 48, 46, 48, 46, 49, 0]

/-- A stack on which every construction step succeeds: the driver comes up, a
block is allocated as number 0, bind, listen and connect report no error. -/
def stack_ok : StackInit :=
  { arch_init := 0
    new_pcb := some 0
    bind_res := ERR_OK
    listen_pcb := some 0
    aton := some 2130706433
    connect_res := ERR_OK }

/-- The address string 192.168.100.100, fifteen characters, as bytes followed
by the terminator. -/
def dotted_quad_15 : List Nat :=
  [49, 57, 50, 46, 49, 54, 56, 46, 49, 48, 48, 46, 49, 48, 48, 0]

/-- A concrete listening server with no connection yet: the sample adapter
with its active handle cleared (poll interval 5).  It also serves as the fresh
memory, with a null active handle, of a server under construction. -/
def sample_listening : SPNetworking :=
  { sample 0 0 ERR_OK with state := { (sample 0 0 ERR_OK).state with remote_pcb := none } }

/-! ## Lemmas on the byte-list routines -/

theorem strlen_le_length (m : List Nat) : strlen m ≤ m.length := by
  induction m with
  | nil => simp [strlen]
  | cons b rest ih =>
    cases b with
    | zero => simp [strlen]
    | succ k => simp [strlen, ih]

theorem strlen_eq_length (m : List Nat) (hz : ∀ b ∈ m, b ≠ 0) : strlen m = m.length := by
  induction m with
  | nil => simp [strlen]
  | cons b rest ih =>
    cases b with
    | zero => exact absurd rfl (hz 0 (by simp))
    | succ k =>
      have hrest : ∀ c ∈ rest, c ≠ 0 := fun c hc => hz c (by simp [hc])
      simp [strlen, ih hrest]

theorem store_length (buf data : List Nat) (off : Nat) (h : off + data.length ≤ buf.length) :
    (store buf off data).length = buf.length := by
  simp only [store, List.length_append, List.length_take, List.length_drop]
  omega

theorem store_take (buf data : List Nat) (off : Nat) (h : off ≤ buf.length) :
    (store buf off data).take off = buf.take off := by
  simp only [store, List.append_assoc]
  rw [List.take_append_of_le_length (by simp [h])]
  simp [List.take_take]

theorem store_drop (buf data : List Nat) (off : Nat) (h : off ≤ buf.length) :
    (store buf off data).drop off = data ++ buf.drop (off + data.length) := by
  simp only [store, List.append_assoc]
  rw [List.drop_append_of_le_length (by simp [h])]
  simp [List.drop_take]

theorem store_zero_take (buf data : List Nat) :
    (store buf 0 data).take data.length = data := by
  simp [store]

theorem store_zero_drop (buf data : List Nat) :
    (store buf 0 data).drop data.length = buf.drop data.length := by
  simp [store]

/-! ## send -/

/-- C1 (amended): for every byte sequence `m` that holds no zero byte, with
`len(m) <= BUF_SIZE`, `send(m)` on a connection whose write succeeds returns
true and hands the stack exactly one frame, of exactly `BUF_SIZE` bytes, whose
first `len(m)` bytes are `m`. -/
theorem send_frame_of_zero_free (w : SPNetworking) (m : List Nat) (close_res : err_t)
    (hz : ∀ b ∈ m, b ≠ 0) (hlen : m.length ≤ BUF_SIZE)
    (hsz : w.state.buffer_sent.length = BUF_SIZE) :
    (send m ERR_OK close_res w).1 = true ∧
    ∃ frame, (send m ERR_OK close_res w).2.lwip_calls =
        w.lwip_calls ++ [LwipCall.tcp_write w.state.remote_pcb frame BUF_SIZE] ∧
      frame.length = BUF_SIZE ∧ frame.take m.length = m := by
  have hs : strlen m = m.length := strlen_eq_length m hz
  have hnot : ¬ (m.length > BUF_SIZE) := by omega
  have hmem : (memcpy w.state.buffer_sent m m.length).length = BUF_SIZE := by
    unfold memcpy
    rw [store_length _ _ _ (by simp; omega), hsz]
  refine ⟨by simp [send, hs, hnot], ?_⟩
  refine ⟨(memcpy w.state.buffer_sent m m.length).take BUF_SIZE, ?_, ?_, ?_⟩
  · simp [send, hs, hnot, SPNetworking.call]
  · simp [hmem]
  · rw [List.take_take, Nat.min_eq_left hlen]
    unfold memcpy
    simp [store]

/-- C1, witness: the three-byte message 72 105 33 on the sample connection. -/
theorem send_frame_of_zero_free_witness :
    (send [72, 105, 33] ERR_OK ERR_OK (sample 0 0 ERR_OK)).1 = true ∧
    ∃ frame, (send [72, 105, 33] ERR_OK ERR_OK (sample 0 0 ERR_OK)).2.lwip_calls =
        (sample 0 0 ERR_OK).lwip_calls ++
          [LwipCall.tcp_write (sample 0 0 ERR_OK).state.remote_pcb frame BUF_SIZE] ∧
      frame.length = BUF_SIZE ∧ frame.take [72, 105, 33].length = [72, 105, 33] :=
  send_frame_of_zero_free (sample 0 0 ERR_OK) [72, 105, 33] ERR_OK (by decide) (by decide)
    (by simp [sample])

/-- C1, counterexample: the three-byte sequence 65 0 66 sent on a healthy
connection whose send buffer holds zeros.  The call returns true, and the
frame handed to the stack does not start with those three bytes: the code
measures the message with `strlen` and copies the single byte before the zero. -/
theorem send_embedded_zero_frame :
    [65, 0, 66].length ≤ BUF_SIZE ∧
    (sample 0 0 ERR_OK).state.error = ERR_OK ∧
    (sample 0 0 ERR_OK).state.remote_pcb = some 1 ∧
    (send [65, 0, 66] ERR_OK ERR_OK (sample 0 0 ERR_OK)).1 = true ∧
    (send [65, 0, 66] ERR_OK ERR_OK (sample 0 0 ERR_OK)).2.lwip_calls =
      [LwipCall.tcp_write (some 1) (65 :: List.replicate 2047 0) BUF_SIZE] ∧
    (65 :: List.replicate 2047 0).take [65, 0, 66].length ≠ [65, 0, 66] := by
  refine ⟨by decide, rfl, rfl, rfl, ?_, ?_⟩
  · simp [-List.reduceReplicate, send, strlen, sample, SPNetworking.call, memcpy, store,
      BUF_SIZE, ERR_OK]
  · simp [-List.reduceReplicate, List.take_replicate]
    decide


/-- C2 (amended): for every message `m` that holds no zero byte, with
`len(m) > BUF_SIZE`, and every connection state and stack answer, `send(m)`
returns false and leaves the whole adapter as it was: no write is issued
(the call log is unchanged) and `send_buffer` and `error` are untouched. -/
theorem send_rejects_long_zero_free (w : SPNetworking) (m : List Nat)
    (write_res close_res : err_t)
    (hz : ∀ b ∈ m, b ≠ 0) (hlen : BUF_SIZE < m.length) :
    send m write_res close_res w = (false, w) := by
  have hs : strlen m = m.length := strlen_eq_length m hz
  simp [send, hs, hlen]

/-- C2, witness: 2049 bytes of value 65 on the sample connection. -/
theorem send_rejects_long_zero_free_witness :
    send (List.replicate 2049 65) ERR_OK ERR_OK (sample 0 0 ERR_OK) =
      (false, sample 0 0 ERR_OK) :=
  send_rejects_long_zero_free (sample 0 0 ERR_OK) (List.replicate 2049 65) ERR_OK ERR_OK
    (by intro b hb; rw [List.eq_of_mem_replicate hb]; decide)
    (by simp [-List.reduceReplicate, BUF_SIZE])

/-- C2, counterexample: a message of 2049 bytes, 65 then 0 then 2047 bytes of
value 66, sent on the sample connection.  Its length exceeds `BUF_SIZE`, yet
the call returns true, issues a write and changes `send_buffer`: `strlen`
stops at the zero byte and measures a length of one. -/
theorem send_long_embedded_zero_accepted :
    BUF_SIZE < (65 :: 0 :: List.replicate 2047 66).length ∧
    (send (65 :: 0 :: List.replicate 2047 66) ERR_OK ERR_OK (sample 0 0 ERR_OK)).1 = true ∧
    (send (65 :: 0 :: List.replicate 2047 66) ERR_OK ERR_OK (sample 0 0 ERR_OK)).2.lwip_calls =
      [LwipCall.tcp_write (some 1) (65 :: List.replicate 2047 0) BUF_SIZE] ∧
    (sample 0 0 ERR_OK).lwip_calls = [] ∧
    (send (65 :: 0 :: List.replicate 2047 66) ERR_OK ERR_OK
        (sample 0 0 ERR_OK)).2.state.buffer_sent[0]? = some 65 ∧
    (sample 0 0 ERR_OK).state.buffer_sent[0]? = some 0 := by
  refine ⟨by simp [-List.reduceReplicate, BUF_SIZE], rfl, ?_, rfl, ?_, ?_⟩
  · simp [-List.reduceReplicate, send, strlen, sample, SPNetworking.call, memcpy, store,
      BUF_SIZE, ERR_OK]
  · simp [-List.reduceReplicate, send, strlen, sample, SPNetworking.call, memcpy, store,
      BUF_SIZE, ERR_OK]
  · simp [-List.reduceReplicate, sample, BUF_SIZE]

/-! ## The data-received handler and read -/

theorem buffer_left_eq (r : Nat) (h : r ≤ BUF_SIZE) :
    (((BUF_SIZE : Int) - (r : Int)) % 65536).toNat = BUF_SIZE - r := by
  unfold BUF_SIZE at *
  have h1 : ((2048 : Nat) : Int) - (r : Int) = ((2048 - r : Nat) : Int) := by omega
  have h2 : (((2048 - r : Nat) : Int)) % 65536 = ((2048 - r : Nat) : Int) := by omega
  rw [h1, h2]
  simp

/-- The data-received handler on a non-null delivery, in closed form: the
bytes that fit are stored at index `recv_len`. -/
theorem tcp_con_recv_some (w : SPNetworking) (tpcb : Option Nat) (p : pbuf) (err : err_t)
    (hr : w.state.recv_len ≤ BUF_SIZE) :
    (tcp_con_recv tpcb (some p) err w).1 = ERR_OK ∧
    (tcp_con_recv tpcb (some p) err w).2.state =
      { w.state with
        buffer_recv := store w.state.buffer_recv w.state.recv_len
          (p.payload.take (min p.payload.length (BUF_SIZE - w.state.recv_len)))
        recv_len := w.state.recv_len + min p.payload.length (BUF_SIZE - w.state.recv_len)
        incoming := true } ∧
    (tcp_con_recv tpcb (some p) err w).2.tmp_buf = w.tmp_buf := by
  have hleft := buffer_left_eq w.state.recv_len hr
  by_cases hpos : p.payload.length > 0
  · have hmin : (if p.payload.length > BUF_SIZE - w.state.recv_len
          then BUF_SIZE - w.state.recv_len else p.payload.length) =
        min p.payload.length (BUF_SIZE - w.state.recv_len) := by
      split <;> omega
    have hmod : (w.state.recv_len + min p.payload.length (BUF_SIZE - w.state.recv_len))
        % 65536 = w.state.recv_len + min p.payload.length (BUF_SIZE - w.state.recv_len) := by
      apply Nat.mod_eq_of_lt
      unfold BUF_SIZE at *
      omega
    have hk : min (min p.payload.length (BUF_SIZE - w.state.recv_len)) p.payload.length =
        min p.payload.length (BUF_SIZE - w.state.recv_len) := by omega
    simp [tcp_con_recv, pbuf.tot_len, pbuf_copy_partial, SPNetworking.call, hpos, hleft,
      hmin, hmod, hk]
  · have h0 : p.payload.length = 0 := by omega
    have hnil : p.payload = [] := List.length_eq_zero.mp h0
    simp [tcp_con_recv, pbuf.tot_len, SPNetworking.call, hnil, store]

/-- C3: after a non-null delivery of `k <= BUF_SIZE` payload bytes to a state
with `error` Ok and `recv_len = 0`, `has_incoming` is true, and the `read()`
that follows returns a buffer whose first `k` bytes are exactly the payload and
leaves `recv_len = 0` and `has_incoming = false`. -/
theorem recv_then_read_roundtrip (w : SPNetworking) (tpcb : Option Nat) (p : pbuf)
    (err : err_t) (herr : w.state.error = ERR_OK) (hempty : w.state.recv_len = 0)
    (hk : p.payload.length ≤ BUF_SIZE) :
    (tcp_con_recv tpcb (some p) err w).2.state.incoming = true ∧
    ∃ buf, (read (tcp_con_recv tpcb (some p) err w).2).1 = some buf ∧
      buf.take p.payload.length = p.payload ∧
      (read (tcp_con_recv tpcb (some p) err w).2).2.state.recv_len = 0 ∧
      (read (tcp_con_recv tpcb (some p) err w).2).2.state.incoming = false := by
  obtain ⟨_, hst, _⟩ := tcp_con_recv_some w tpcb p err (by omega)
  have hmin : min p.payload.length (BUF_SIZE - 0) = p.payload.length := by omega
  rw [hempty, hmin, List.take_length] at hst
  refine ⟨by rw [hst], ?_⟩
  have herr1 : (tcp_con_recv tpcb (some p) err w).2.state.error = ERR_OK := by
    rw [hst]; exact herr
  refine ⟨memcpy (memset (tcp_con_recv tpcb (some p) err w).2.tmp_buf 0
      ((tcp_con_recv tpcb (some p) err w).2.state.recv_len + 1))
      (tcp_con_recv tpcb (some p) err w).2.state.buffer_recv
      (tcp_con_recv tpcb (some p) err w).2.state.recv_len, ?_, ?_, ?_, ?_⟩
  · simp [read, herr1]
  · rw [hst]
    simp [memcpy, store]
  · simp [read, herr1]
  · simp [read, herr1]

/-- C3, witness: the payload 1 2 3 delivered to the empty sample connection. -/
theorem recv_then_read_roundtrip_witness :
    (tcp_con_recv (some 1) (some ⟨[1, 2, 3], by decide⟩) ERR_OK
        (sample 0 0 ERR_OK)).2.state.incoming = true ∧
    ∃ buf, (read (tcp_con_recv (some 1) (some ⟨[1, 2, 3], by decide⟩) ERR_OK
        (sample 0 0 ERR_OK)).2).1 = some buf ∧
      buf.take [1, 2, 3].length = [1, 2, 3] ∧
      (read (tcp_con_recv (some 1) (some ⟨[1, 2, 3], by decide⟩) ERR_OK
        (sample 0 0 ERR_OK)).2).2.state.recv_len = 0 ∧
      (read (tcp_con_recv (some 1) (some ⟨[1, 2, 3], by decide⟩) ERR_OK
        (sample 0 0 ERR_OK)).2).2.state.incoming = false :=
  recv_then_read_roundtrip (sample 0 0 ERR_OK) (some 1) ⟨[1, 2, 3], by decide⟩ ERR_OK
    rfl rfl (by decide)


/-- C4: for every state with `recv_len = r <= BUF_SIZE` and every non-null
delivery of `n` payload bytes, the data-received handler returns Ok, keeps the
first `r` bytes of `recv_buffer`, places exactly the first
`min(n, BUF_SIZE - r)` payload bytes after them, sets
`recv_len = r + min(n, BUF_SIZE - r)` and `has_incoming = true`, leaves `error`
unchanged, and the buffer keeps its `BUF_SIZE` bytes: nothing is written past
it. -/
theorem tcp_con_recv_truncates (w : SPNetworking) (tpcb : Option Nat) (p : pbuf) (err : err_t)
    (hr : w.state.recv_len ≤ BUF_SIZE) (hsz : w.state.buffer_recv.length = BUF_SIZE) :
    (tcp_con_recv tpcb (some p) err w).1 = ERR_OK ∧
    (tcp_con_recv tpcb (some p) err w).2.state.buffer_recv.take w.state.recv_len =
      w.state.buffer_recv.take w.state.recv_len ∧
    ((tcp_con_recv tpcb (some p) err w).2.state.buffer_recv.drop w.state.recv_len).take
        (min p.payload.length (BUF_SIZE - w.state.recv_len)) =
      p.payload.take (min p.payload.length (BUF_SIZE - w.state.recv_len)) ∧
    (tcp_con_recv tpcb (some p) err w).2.state.recv_len =
      w.state.recv_len + min p.payload.length (BUF_SIZE - w.state.recv_len) ∧
    (tcp_con_recv tpcb (some p) err w).2.state.incoming = true ∧
    (tcp_con_recv tpcb (some p) err w).2.state.error = w.state.error ∧
    (tcp_con_recv tpcb (some p) err w).2.state.buffer_recv.length = BUF_SIZE := by
  obtain ⟨hret, hst, _⟩ := tcp_con_recv_some w tpcb p err hr
  have hdata : (p.payload.take (min p.payload.length (BUF_SIZE - w.state.recv_len))).length =
      min p.payload.length (BUF_SIZE - w.state.recv_len) := by
    rw [List.length_take]; omega
  have hoff : w.state.recv_len ≤ w.state.buffer_recv.length := by omega
  refine ⟨hret, ?_, ?_, ?_, ?_, ?_, ?_⟩
  · rw [hst]
    exact store_take _ _ _ hoff
  · rw [hst]
    show (List.drop w.state.recv_len (store w.state.buffer_recv w.state.recv_len _)).take _ = _
    rw [store_drop _ _ _ hoff]
    nth_rewrite 1 [← hdata]
    rw [List.take_left]
  · rw [hst]
  · rw [hst]
  · rw [hst]
  · rw [hst]
    show (store w.state.buffer_recv w.state.recv_len _).length = _
    rw [store_length _ _ _ (by rw [hdata]; omega), hsz]

/-- C4, witness: five payload bytes delivered when 2046 of the 2048 bytes are
already pending; two of them fit. -/
theorem tcp_con_recv_truncates_witness :
    (tcp_con_recv (some 1) (some ⟨[1, 2, 3, 4, 5], by decide⟩) ERR_OK
        (sample 0 2046 ERR_OK)).2.state.recv_len =
      (sample 0 2046 ERR_OK).state.recv_len +
        min [1, 2, 3, 4, 5].length (BUF_SIZE - (sample 0 2046 ERR_OK).state.recv_len) :=
  (tcp_con_recv_truncates (sample 0 2046 ERR_OK) (some 1) ⟨[1, 2, 3, 4, 5], by decide⟩ ERR_OK
    (by decide) (by simp [-List.reduceReplicate, sample])).2.2.2.1

/-- The caller-visible buffer after `read()`, in closed form: the pending
bytes, one zero byte, then what the buffer held before. -/
theorem read_tmp_buf (w : SPNetworking) (herr : w.state.error = ERR_OK)
    (hr : w.state.recv_len ≤ w.state.buffer_recv.length) :
    (read w).1 = some (read w).2.tmp_buf ∧
    (read w).2.tmp_buf = w.state.buffer_recv.take w.state.recv_len ++
      0 :: w.tmp_buf.drop (w.state.recv_len + 1) := by
  have hmin : min w.state.recv_len w.state.buffer_recv.length = w.state.recv_len := by omega
  refine ⟨by simp [read, herr], ?_⟩
  simp [read, herr, memcpy, memset, store, hmin, List.drop_append_eq_append_drop,
    List.drop_replicate, List.replicate_one]

/-- C5 (amended): for every state with `error` Ok and `recv_len <= BUF_SIZE`,
after `read()` the first `recv_len` bytes of the caller-visible buffer are the
first `recv_len` bytes of `recv_buffer`; when `recv_len < BUF_SIZE` the byte at
index `recv_len` is zero and every byte from index `recv_len + 1` up to
`BUF_SIZE - 1` is what the caller-visible buffer held there before. -/
theorem read_buffer_contents (w : SPNetworking) (herr : w.state.error = ERR_OK)
    (hr : w.state.recv_len ≤ BUF_SIZE) (hsz : w.sized) :
    (read w).1 = some (read w).2.tmp_buf ∧
    (read w).2.tmp_buf.take w.state.recv_len = w.state.buffer_recv.take w.state.recv_len ∧
    (w.state.recv_len < BUF_SIZE →
      (read w).2.tmp_buf[w.state.recv_len]? = some 0 ∧
      ∀ i, w.state.recv_len < i → i < BUF_SIZE → (read w).2.tmp_buf[i]? = w.tmp_buf[i]?) := by
  obtain ⟨_, hrecv, htmp⟩ := hsz
  obtain ⟨hret, hbuf⟩ := read_tmp_buf w herr (by omega)
  have hlen : (w.state.buffer_recv.take w.state.recv_len).length = w.state.recv_len := by
    rw [List.length_take]; omega
  refine ⟨hret, ?_, ?_⟩
  · rw [hbuf]
    nth_rewrite 1 [← hlen]
    rw [List.take_left]
  · intro _
    refine ⟨?_, ?_⟩
    · rw [hbuf, List.getElem?_append_right (by omega)]
      simp [hlen]
    · intro i hi _
      rw [hbuf, List.getElem?_append_right (by omega), hlen]
      obtain ⟨d, rfl⟩ : ∃ d, i = w.state.recv_len + 1 + d := ⟨i - (w.state.recv_len + 1), by omega⟩
      have hidx : w.state.recv_len + 1 + d - w.state.recv_len = d + 1 := by omega
      rw [hidx, List.getElem?_cons_succ, List.getElem?_drop]

/-- C5, witness: one pending byte on a connection whose caller-visible buffer
still holds the bytes of an earlier read. -/
theorem read_buffer_contents_witness :
    (read (sample 7 1 ERR_OK)).1 = some (read (sample 7 1 ERR_OK)).2.tmp_buf ∧
    (read (sample 7 1 ERR_OK)).2.tmp_buf.take (sample 7 1 ERR_OK).state.recv_len =
      (sample 7 1 ERR_OK).state.buffer_recv.take (sample 7 1 ERR_OK).state.recv_len ∧
    ((sample 7 1 ERR_OK).state.recv_len < BUF_SIZE →
      (read (sample 7 1 ERR_OK)).2.tmp_buf[(sample 7 1 ERR_OK).state.recv_len]? = some 0 ∧
      ∀ i, (sample 7 1 ERR_OK).state.recv_len < i → i < BUF_SIZE →
        (read (sample 7 1 ERR_OK)).2.tmp_buf[i]? = (sample 7 1 ERR_OK).tmp_buf[i]?) :=
  read_buffer_contents (sample 7 1 ERR_OK) rfl (by decide)
    (by simp [-List.reduceReplicate, SPNetworking.sized, sample])

/-- C5, counterexample: `error` is Ok, one byte is pending and the
caller-visible buffer holds bytes of value 7 from an earlier read.  After
`read()` the byte at index 2, which lies between `recv_len` and `BUF_SIZE - 1`,
is still 7 and not zero: `memset` clears `recv_len + 1` bytes only. -/
theorem read_leaves_stale_bytes :
    (sample 7 1 ERR_OK).state.error = ERR_OK ∧
    (sample 7 1 ERR_OK).state.recv_len ≤ BUF_SIZE ∧
    (sample 7 1 ERR_OK).state.recv_len ≤ 2 ∧ 2 ≤ BUF_SIZE - 1 ∧
    (read (sample 7 1 ERR_OK)).1 = some (read (sample 7 1 ERR_OK)).2.tmp_buf ∧
    (read (sample 7 1 ERR_OK)).2.tmp_buf[2]? = some 7 := by
  refine ⟨rfl, by decide, by decide, by decide, ?_, ?_⟩
  · simp [read, sample, ERR_OK]
  · simp [-List.reduceReplicate, read, sample, ERR_OK, memcpy, memset, store, BUF_SIZE,
      List.take_replicate, List.drop_replicate, List.getElem?_append_right,
      List.getElem?_replicate]


/-! ## The error reporting routine -/

/-- The `switch` of `error_handler` in closed form. -/
theorem error_handler_eq (w : SPNetworking) :
    error_handler w =
      if w.state.error = ERR_TIMEOUT ∨ w.state.error = ERR_RST ∨ w.state.error = ERR_ARG then
        { w with state := { w.state with error := ERR_OK } }
      else w := by
  by_cases h1 : w.state.error = ERR_TIMEOUT
  · simp [error_handler, h1, ERR_OK, ERR_MEM, ERR_BUF, ERR_TIMEOUT]
  · by_cases h2 : w.state.error = ERR_RST
    · simp [error_handler, h2, ERR_OK, ERR_MEM, ERR_BUF, ERR_TIMEOUT, ERR_RTE, ERR_INPROGRESS,
        ERR_VAL, ERR_WOULDBLOCK, ERR_USE, ERR_ALREADY, ERR_ISCONN, ERR_CONN, ERR_IF, ERR_ABRT,
        ERR_RST]
    · by_cases h3 : w.state.error = ERR_ARG
      · simp [error_handler, h3, ERR_OK, ERR_MEM, ERR_BUF, ERR_TIMEOUT, ERR_RTE,
          ERR_INPROGRESS, ERR_VAL, ERR_WOULDBLOCK, ERR_USE, ERR_ALREADY, ERR_ISCONN, ERR_CONN,
          ERR_IF, ERR_ABRT, ERR_RST, ERR_CLSD, ERR_ARG]
      · simp [error_handler, h1, h2, h3]

/-- Every event handler and every operation keeps `recv_len <= BUF_SIZE` once
it holds. -/
theorem step_keeps_recv_len_bound (w : SPNetworking) (op : Op)
    (hr : w.state.recv_len ≤ BUF_SIZE) : (step w op).state.recv_len ≤ BUF_SIZE := by
  cases op with
  | accept client_pcb err =>
    simp only [step, tcp_server_accept]
    split <;> simpa [SPNetworking.call] using hr
  | recv tpcb p err =>
    cases p with
    | none => simpa [step, tcp_con_recv] using hr
    | some pb =>
      obtain ⟨_, hst, _⟩ := tcp_con_recv_some w tpcb pb err hr
      simp only [step]
      rw [hst]
      show w.state.recv_len + min pb.payload.length (BUF_SIZE - w.state.recv_len) ≤ BUF_SIZE
      omega
  | sent len => exact hr
  | poll close_res =>
    simp only [step, tcp_con_poll, end_con]
    split
    · exact hr
    · by_cases hc : close_res = ERR_OK <;> simpa [SPNetworking.call, hc] using hr
  | err e close_res =>
    simp only [step, tcp_con_err, end_con]
    split
    · exact hr
    · by_cases hc : close_res = ERR_OK <;> simpa [SPNetworking.call, hc] using hr
  | connected err =>
    simp only [step, tcp_client_connected]
    split <;> exact hr
  | listen =>
    simp only [step, listen_iter, error_handler_eq]
    split
    · split <;> exact hr
    · split <;> exact hr
  | read =>
    simp only [step, read]
    split
    · exact hr
    · exact Nat.zero_le _
  | send message write_res close_res =>
    simp only [step, send]
    split
    · exact hr
    · split
      · simp only [end_con]
        split
        · exact hr
        · by_cases hc : close_res = ERR_OK <;> simpa [SPNetworking.call, hc] using hr
      · exact hr
  | status => exact hr
  | end_con close_res =>
    simp only [step, end_con]
    split
    · exact hr
    · by_cases hc : close_res = ERR_OK <;> simpa [SPNetworking.call, hc] using hr
  | connect_to_wifi wifi_res =>
    simp only [step, connect_to_wifi]
    split <;> exact hr

/-! ## Persistence of fatal errors -/

theorem fatal_kind_ne_ok (e : err_t) (h : fatal_kind e) : e ≠ ERR_OK := by
  unfold fatal_kind at h
  rcases h with h | h | h | h | h | h <;> subst h <;> decide

theorem fatal_kind_not_cleared (e : err_t) (h : fatal_kind e) :
    ¬ (e = ERR_TIMEOUT ∨ e = ERR_RST ∨ e = ERR_ARG) := by
  unfold fatal_kind at h
  rcases h with h | h | h | h | h | h <;> subst h <;> decide

theorem end_con_error (close_res : err_t) (w : SPNetworking) :
    (end_con close_res w).2.state.error = w.state.error := by
  unfold end_con
  cases w.state.remote_pcb with
  | none => rfl
  | some pcb =>
    by_cases hc : close_res = ERR_OK <;> simp [SPNetworking.call, hc]

theorem step_keeps_fatal (w : SPNetworking) (op : Op) (hf : fatal_kind w.state.error)
    (hr : w.state.recv_len ≤ BUF_SIZE) (hq : op.records_error = false) :
    (step w op).state.error = w.state.error := by
  have hne := fatal_kind_ne_ok _ hf
  have hnc := fatal_kind_not_cleared _ hf
  cases op with
  | accept client_pcb err =>
    simp only [step, tcp_server_accept]
    split <;> simp [SPNetworking.call]
  | recv tpcb p err =>
    cases p with
    | none => simp [Op.records_error] at hq
    | some pb =>
      obtain ⟨_, hst, _⟩ := tcp_con_recv_some w tpcb pb err hr
      simp only [step]
      rw [hst]
  | sent len => rfl
  | poll close_res => simp [Op.records_error] at hq
  | err e close_res => simp [Op.records_error] at hq
  | connected err =>
    simp only [step, tcp_client_connected]
    split <;> rfl
  | listen => simp [step, listen_iter, hne, error_handler_eq, hnc]
  | read => simp [step, read, hne]
  | send message write_res close_res =>
    have hw : write_res = ERR_OK := by simpa [Op.records_error] using hq
    simp only [step, send]
    split
    · rfl
    · simp [hw, SPNetworking.call]
  | status => rfl
  | end_con close_res => exact end_con_error close_res w
  | connect_to_wifi wifi_res =>
    simp only [step, connect_to_wifi]
    split <;> rfl

/-- The steps that record a reported code store exactly that code in `error`:
a null delivery and the fatal-error handler the code they are given, the
poll/timeout handler Timeout, and a `send` that passes the length guard and
whose write fails the code of the write. -/
theorem step_records_code (w : SPNetworking) :
    (∀ tpcb e, (step w (Op.recv tpcb none e)).state.error = e) ∧
    (∀ close_res, (step w (Op.poll close_res)).state.error = ERR_TIMEOUT) ∧
    (∀ e close_res, (step w (Op.err e close_res)).state.error = e) ∧
    (∀ m write_res close_res, strlen m ≤ BUF_SIZE → write_res ≠ ERR_OK →
      (step w (Op.send m write_res close_res)).state.error = write_res) := by
  refine ⟨fun _ _ => rfl, ?_, ?_, ?_⟩
  · intro close_res
    simp only [step, tcp_con_poll]
    rw [end_con_error]
  · intro e close_res
    simp only [step, tcp_con_err]
    rw [end_con_error]
  · intro m write_res close_res hm hw
    have hnot : ¬ (strlen m > BUF_SIZE) := by omega
    simp only [step, send, hnot, if_false, hw, ne_eq, not_false_eq_true, if_true]
    rw [end_con_error]

/-- C6 (amended): from a state in which `recv_len <= BUF_SIZE` holds, once
`error` is Aborted, InterfaceError, Closed, OutOfMemory or AlreadyInProgress,
`status()` returns false, and `error` keeps that kind, so `status()` stays
false, after every sequence of accept, non-null data-received, send-completed
and connect-completed events and of `listen`, `read`, `status`,
`end_connection`, link set-up and `send` calls whose write succeeds; the error
reporting routine inside `listen` does not clear any of these kinds, and
`recv_len <= BUF_SIZE` still holds afterwards.  The steps left out are those
that record a reported code: each of them stores that code in `error`. -/
theorem fatal_error_persists (w : SPNetworking) (ops : List Op)
    (hf : fatal_kind w.state.error) (hr : w.state.recv_len ≤ BUF_SIZE)
    (hq : ∀ op ∈ ops, op.records_error = false) :
    status w = false ∧ (run w ops).state.error = w.state.error ∧
      status (run w ops) = false ∧ (run w ops).state.recv_len ≤ BUF_SIZE ∧
      (∀ tpcb e, (step (run w ops) (Op.recv tpcb none e)).state.error = e) ∧
      (∀ close_res, (step (run w ops) (Op.poll close_res)).state.error = ERR_TIMEOUT) ∧
      (∀ e close_res, (step (run w ops) (Op.err e close_res)).state.error = e) ∧
      (∀ m write_res close_res, strlen m ≤ BUF_SIZE → write_res ≠ ERR_OK →
        (step (run w ops) (Op.send m write_res close_res)).state.error = write_res) := by
  have hrun : (run w ops).state.error = w.state.error ∧
      (run w ops).state.recv_len ≤ BUF_SIZE := by
    induction ops generalizing w with
    | nil => exact ⟨rfl, hr⟩
    | cons op rest ih =>
      have hstep := step_keeps_fatal w op hf hr (hq op (by simp))
      have hbound := step_keeps_recv_len_bound w op hr
      have hrest := ih (step w op) (by rw [hstep]; exact hf) hbound
        (fun o ho => hq o (by simp [ho]))
      simp only [run, List.foldl_cons] at hrest ⊢
      exact ⟨by rw [hrest.1, hstep], hrest.2⟩
  have hne := fatal_kind_ne_ok _ hf
  refine ⟨by simp [status, hne], hrun.1, ?_, hrun.2, step_records_code (run w ops)⟩
  simp [status, hrun.1, hne]

/-- C6, witness: an aborted connection that then sees an accept attempt, a
delivery, a pass of `listen`, a `read`, a successful `send` and a teardown. -/
theorem fatal_error_persists_witness :
    status (sample 0 0 ERR_ABRT) = false ∧
    (run (sample 0 0 ERR_ABRT)
      [Op.accept (some 2) ERR_OK, Op.recv (some 1) (some ⟨[1, 2], by decide⟩) ERR_OK,
       Op.listen, Op.read, Op.send [65] ERR_OK ERR_OK, Op.end_con ERR_OK]).state.error =
      (sample 0 0 ERR_ABRT).state.error ∧
    status (run (sample 0 0 ERR_ABRT)
      [Op.accept (some 2) ERR_OK, Op.recv (some 1) (some ⟨[1, 2], by decide⟩) ERR_OK,
       Op.listen, Op.read, Op.send [65] ERR_OK ERR_OK, Op.end_con ERR_OK]) = false ∧
    (run (sample 0 0 ERR_ABRT)
      [Op.accept (some 2) ERR_OK, Op.recv (some 1) (some ⟨[1, 2], by decide⟩) ERR_OK,
       Op.listen, Op.read, Op.send [65] ERR_OK ERR_OK,
       Op.end_con ERR_OK]).state.recv_len ≤ BUF_SIZE :=
  have h := fatal_error_persists (sample 0 0 ERR_ABRT)
    [Op.accept (some 2) ERR_OK, Op.recv (some 1) (some ⟨[1, 2], by decide⟩) ERR_OK,
     Op.listen, Op.read, Op.send [65] ERR_OK ERR_OK, Op.end_con ERR_OK]
    (by decide) (by decide)
    (by
      intro op hop
      simp only [List.mem_cons, List.mem_singleton, List.not_mem_nil, or_false] at hop
      rcases hop with h | h | h | h | h | h <;> subst h <;> rfl)
  ⟨h.1, h.2.1, h.2.2.1, h.2.2.2.1⟩

/-- C6, counterexample: `error` is Aborted and `status()` is false; the peer
then closes gracefully, which the stack reports as a null delivery with code
Ok.  The handler stores that code, and `status()` returns true again. -/
theorem null_delivery_clears_fatal_error :
    (sample 0 0 ERR_ABRT).state.error = ERR_ABRT ∧
    status (sample 0 0 ERR_ABRT) = false ∧
    (run (sample 0 0 ERR_ABRT) [Op.recv (some 1) none ERR_OK]).state.error = ERR_OK ∧
    status (run (sample 0 0 ERR_ABRT) [Op.recv (some 1) none ERR_OK]) = true := by
  refine ⟨rfl, rfl, rfl, rfl⟩

/-! ## send does not look at the error field -/

/-- C7, the code at the failing input: `error` is Closed, the handle is still
set, and the one-byte message 65 is sent.  The call returns true, the byte is
copied into `send_buffer`, and a write of `BUF_SIZE` bytes is issued. -/
theorem send_ignores_error :
    (sample 0 0 ERR_CLSD).state.error ≠ ERR_OK ∧
    [65].length ≤ BUF_SIZE ∧
    (send [65] ERR_OK ERR_OK (sample 0 0 ERR_CLSD)).1 = true ∧
    (sample 0 0 ERR_CLSD).state.buffer_sent[0]? = some 0 ∧
    (send [65] ERR_OK ERR_OK (sample 0 0 ERR_CLSD)).2.state.buffer_sent[0]? = some 65 ∧
    (sample 0 0 ERR_CLSD).lwip_calls = [] ∧
    (send [65] ERR_OK ERR_OK (sample 0 0 ERR_CLSD)).2.lwip_calls =
      [LwipCall.tcp_write (some 1) (65 :: List.replicate 2047 0) BUF_SIZE] := by
  refine ⟨by decide, by decide, rfl, ?_, ?_, rfl, ?_⟩
  · simp [-List.reduceReplicate, sample, BUF_SIZE]
  · simp [-List.reduceReplicate, send, strlen, sample, SPNetworking.call, memcpy, store,
      BUF_SIZE, ERR_OK]
  · simp [-List.reduceReplicate, send, strlen, sample, SPNetworking.call, memcpy, store,
      BUF_SIZE, ERR_OK]

/-! ## Teardown and accept -/

/-- C8: for every state and every answer of the orderly close, after one
`end_connection()` the active handle is cleared, and a second call in
succession returns Ok, makes no call to the stack, and leaves the adapter
exactly as the first call left it. -/
theorem end_con_idempotent (w : SPNetworking) (close1 close2 : err_t) :
    (end_con close1 w).2.state.remote_pcb = none ∧
    (end_con close2 (end_con close1 w).2).1 = ERR_OK ∧
    (end_con close2 (end_con close1 w).2).2.lwip_calls = (end_con close1 w).2.lwip_calls ∧
    (end_con close2 (end_con close1 w).2).2 = (end_con close1 w).2 := by
  have h1 : (end_con close1 w).2.state.remote_pcb = none := by
    unfold end_con
    split
    · next hnone => exact hnone
    · rfl
  have h2 : end_con close2 (end_con close1 w).2 = (ERR_OK, (end_con close1 w).2) := by
    generalize (end_con close1 w).2 = v at h1 ⊢
    unfold end_con
    rw [h1]
  refine ⟨h1, ?_, ?_, ?_⟩ <;> rw [h2]

/-- C9: for every state in which the active handle is already set, the accept
handler returns `ERR_VAL` for any offered handle and any reported code and
leaves the whole adapter unchanged. -/
theorem accept_rejected_when_active (w : SPNetworking) (client_pcb : Option Nat) (err : err_t)
    (hactive : w.state.remote_pcb ≠ none) :
    tcp_server_accept client_pcb err w = (ERR_VAL, w) := by
  simp [tcp_server_accept, hactive]

/-- C9, witness: a second client on block 2 offered to the sample connection,
which already serves block 1. -/
theorem accept_rejected_when_active_witness :
    tcp_server_accept (some 2) ERR_OK (sample 0 0 ERR_OK) = (ERR_VAL, sample 0 0 ERR_OK) :=
  accept_rejected_when_active (sample 0 0 ERR_OK) (some 2) ERR_OK (by decide)


/-! ## The bound on recv_len -/

/-- The server path of the constructor never assigns `recv_len`: the field
keeps whatever the fresh memory held. -/
theorem construct_server_recv_len (ip : List Nat) (port poll : Int) (env : StackInit)
    (raw : SPNetworking) :
    (SPNetworking.construct NET_MODE_T.SERVER_MODE ip port poll env raw).state.recv_len =
      raw.state.recv_len := by
  unfold SPNetworking.construct
  by_cases h0 : env.arch_init = 0
  · by_cases h1 : env.new_pcb = none <;> by_cases h2 : env.bind_res = 0 <;>
      by_cases h3 : env.listen_pcb = none <;> simp [SPNetworking.call, h0, h1, h2, h3]
  · simp [h0]

/-- The client path of the constructor assigns `recv_len = 0` once the driver
is up. -/
theorem construct_client_recv_len (ip : List Nat) (port poll : Int) (env : StackInit)
    (raw : SPNetworking) (hinit : env.arch_init = 0) :
    (SPNetworking.construct NET_MODE_T.CLIENT_MODE ip port poll env raw).state.recv_len = 0 := by
  unfold SPNetworking.construct
  by_cases h1 : env.new_pcb = none <;> simp [SPNetworking.call, hinit, h1]

/-- C10, the code at the failing input: a server adapter is constructed on
port 5000 with poll interval 5, every step of the stack succeeds, and the
memory handed out for the connection state holds 3000 where `recv_len` lives.
The constructed adapter reports a good status and has `recv_len = 3000`, above
`BUF_SIZE`; the same construction in client mode has `recv_len = 0`. -/
theorem server_construct_recv_len_unbounded :
    status (SPNetworking.construct NET_MODE_T.SERVER_MODE loopback 5000 5 stack_ok
      (sample 0 3000 ERR_OK)) = true ∧
    (SPNetworking.construct NET_MODE_T.SERVER_MODE loopback 5000 5 stack_ok
      (sample 0 3000 ERR_OK)).state.recv_len = 3000 ∧
    ¬ (3000 ≤ BUF_SIZE) ∧
    (SPNetworking.construct NET_MODE_T.CLIENT_MODE loopback 5000 5 stack_ok
      (sample 0 3000 ERR_OK)).state.recv_len = 0 := by
  refine ⟨?_, ?_, by decide, ?_⟩
  · simp [SPNetworking.construct, stack_ok, SPNetworking.call, status, ERR_OK]
  · rw [construct_server_recv_len]; rfl
  · exact construct_client_recv_len _ _ _ _ _ rfl


/-! ## Status after construction -/

/-- C12: for every state with `error` not Ok, `read()` returns `NULL` and
leaves the whole adapter, the caller-visible buffer included, as it was. -/
theorem read_rejected_on_error (w : SPNetworking) (herr : w.state.error ≠ ERR_OK) :
    read w = (none, w) := by
  simp [read, herr]

/-- C12, witness: three bytes pending on a connection that timed out. -/
theorem read_rejected_on_error_witness :
    read (sample 7 3 ERR_TIMEOUT) = (none, sample 7 3 ERR_TIMEOUT) :=
  read_rejected_on_error (sample 7 3 ERR_TIMEOUT) (by decide)

/-- C13: for every state in which `has_incoming` is already true or `error` is
not Ok, `listen()` returns in its first pass, for any positive amount of fuel;
it returns true exactly when `error` is Ok; when it returns true the adapter
is unchanged, and when it returns false the adapter is the one the error
reporting routine produces from it. -/
theorem listen_first_pass (w : SPNetworking) (fuel : Nat)
    (hready : w.state.incoming = true ∨ w.state.error ≠ ERR_OK) :
    ∃ b w1, listen (fuel + 1) w = some (b, w1) ∧
      (b = true ↔ w.state.error = ERR_OK) ∧
      (b = true → w1 = w) ∧
      (b = false → w1 = error_handler w) := by
  by_cases herr : w.state.error = ERR_OK
  · have hinc : w.state.incoming = true := by
      rcases hready with h | h
      · exact h
      · exact absurd herr h
    exact ⟨true, w, by simp [listen, listen_iter, herr, hinc], by simp [herr], by simp, by simp⟩
  · exact ⟨false, error_handler w, by simp [listen, listen_iter, herr], by simp [herr],
      by simp, by simp⟩

/-- C13, witness: a call of `listen` on a connection that timed out. -/
theorem listen_first_pass_witness :
    ∃ b w1, listen (0 + 1) (sample 0 0 ERR_TIMEOUT) = some (b, w1) ∧
      (b = true ↔ (sample 0 0 ERR_TIMEOUT).state.error = ERR_OK) ∧
      (b = true → w1 = sample 0 0 ERR_TIMEOUT) ∧
      (b = false → w1 = error_handler (sample 0 0 ERR_TIMEOUT)) :=
  listen_first_pass (sample 0 0 ERR_TIMEOUT) 0 (Or.inr (by decide))

/-- C14: the error reporting routine sets `error` to Ok when the current code
is Timeout, Reset or InvalidArgument, leaves `error` as it is for every other
code, whether it has a branch of its own or not, and changes no other field:
putting the old code back gives the adapter it started from. -/
theorem error_handler_clears_exactly (w : SPNetworking) :
    ((w.state.error = ERR_TIMEOUT ∨ w.state.error = ERR_RST ∨ w.state.error = ERR_ARG) →
      (error_handler w).state.error = ERR_OK) ∧
    (¬ (w.state.error = ERR_TIMEOUT ∨ w.state.error = ERR_RST ∨ w.state.error = ERR_ARG) →
      (error_handler w).state.error = w.state.error) ∧
    { error_handler w with
        state := { (error_handler w).state with error := w.state.error } } = w := by
  rw [error_handler_eq]
  by_cases h : w.state.error = ERR_TIMEOUT ∨ w.state.error = ERR_RST ∨ w.state.error = ERR_ARG
  · simp [h]
  · simp [h]


/-! ## Accept, teardown handlers and null delivery -/

/-- The accept handler on a free adapter, in full: for every state with no
active handle, an accept event with a non-null client handle and code Ok
returns Ok, records the handle as the active one, registers the four handlers
on it, the poll/timeout handler with the interval `(poll_time * 2) mod 256`,
sets `has_incoming = true`, and leaves both buffers, `recv_len` and `error`
unchanged. -/
theorem accept_registers_connection (w : SPNetworking) (c : Nat)
    (hfree : w.state.remote_pcb = none) :
    (tcp_server_accept (some c) ERR_OK w).1 = ERR_OK ∧
    (tcp_server_accept (some c) ERR_OK w).2.state.remote_pcb = some c ∧
    (tcp_server_accept (some c) ERR_OK w).2.lwip_calls = w.lwip_calls ++
      [LwipCall.tcp_arg (some c) true,
       LwipCall.tcp_sent (some c) (some Callback.tcp_con_sent),
       LwipCall.tcp_recv (some c) (some Callback.tcp_con_recv),
       LwipCall.tcp_poll (some c) (some Callback.tcp_con_poll) ((w.state.poll_time * 2) % 256),
       LwipCall.tcp_err (some c) (some Callback.tcp_con_err)] ∧
    (tcp_server_accept (some c) ERR_OK w).2.state.incoming = true ∧
    (tcp_server_accept (some c) ERR_OK w).2.state.buffer_recv = w.state.buffer_recv ∧
    (tcp_server_accept (some c) ERR_OK w).2.state.buffer_sent = w.state.buffer_sent ∧
    (tcp_server_accept (some c) ERR_OK w).2.state.recv_len = w.state.recv_len ∧
    (tcp_server_accept (some c) ERR_OK w).2.state.error = w.state.error := by
  simp [tcp_server_accept, hfree, SPNetworking.call]

/-- While `poll_time` is at most 127 the interval the accept handler registers
is exactly twice `poll_time`. -/
theorem accept_interval_doubled (w : SPNetworking) (c : Nat)
    (hfree : w.state.remote_pcb = none) (hsmall : w.state.poll_time ≤ 127) :
    LwipCall.tcp_poll (some c) (some Callback.tcp_con_poll) (2 * w.state.poll_time) ∈
      (tcp_server_accept (some c) ERR_OK w).2.lwip_calls := by
  have hmod : (w.state.poll_time * 2) % 256 = 2 * w.state.poll_time := by omega
  rw [(accept_registers_connection w c hfree).2.2.1, hmod]
  simp

/-- The server path of the constructor stores the poll interval and leaves the
active handle as the fresh memory had it. -/
theorem construct_server_poll_time (ip : List Nat) (port poll : Int) (env : StackInit)
    (raw : SPNetworking) (hinit : env.arch_init = 0) :
    (SPNetworking.construct NET_MODE_T.SERVER_MODE ip port poll env raw).state.poll_time =
      (poll % 65536).toNat ∧
    (SPNetworking.construct NET_MODE_T.SERVER_MODE ip port poll env raw).state.remote_pcb =
      raw.state.remote_pcb := by
  unfold SPNetworking.construct
  by_cases h1 : env.new_pcb = none <;> by_cases h2 : env.bind_res = 0 <;>
    by_cases h3 : env.listen_pcb = none <;> simp [SPNetworking.call, hinit, h1, h2, h3]

/-- C15, the code at the failing input: a server is constructed on port 5000
with poll interval 200, every step of the stack succeeds and no connection is
active; then block 1 is offered with code Ok.  The handler returns Ok and
records the handle, and the interval it registers for the poll/timeout handler
is 144, that is 400 reduced modulo 256, not twice the configured 200. -/
theorem accept_poll_interval_wraps :
    (SPNetworking.construct NET_MODE_T.SERVER_MODE loopback 5000 200 stack_ok
      sample_listening).state.remote_pcb = none ∧
    (SPNetworking.construct NET_MODE_T.SERVER_MODE loopback 5000 200 stack_ok
      sample_listening).state.poll_time = 200 ∧
    (tcp_server_accept (some 1) ERR_OK
      (SPNetworking.construct NET_MODE_T.SERVER_MODE loopback 5000 200 stack_ok
        sample_listening)).1 = ERR_OK ∧
    (tcp_server_accept (some 1) ERR_OK
      (SPNetworking.construct NET_MODE_T.SERVER_MODE loopback 5000 200 stack_ok
        sample_listening)).2.lwip_calls =
      (SPNetworking.construct NET_MODE_T.SERVER_MODE loopback 5000 200 stack_ok
        sample_listening).lwip_calls ++
      [LwipCall.tcp_arg (some 1) true,
       LwipCall.tcp_sent (some 1) (some Callback.tcp_con_sent),
       LwipCall.tcp_recv (some 1) (some Callback.tcp_con_recv),
       LwipCall.tcp_poll (some 1) (some Callback.tcp_con_poll) 144,
       LwipCall.tcp_err (some 1) (some Callback.tcp_con_err)] ∧
    (144 : Nat) ≠ 2 * 200 := by
  have hp := construct_server_poll_time loopback 5000 200 stack_ok sample_listening rfl
  have hfree : (SPNetworking.construct NET_MODE_T.SERVER_MODE loopback 5000 200 stack_ok
      sample_listening).state.remote_pcb = none := by rw [hp.2]; rfl
  have hpoll : (SPNetworking.construct NET_MODE_T.SERVER_MODE loopback 5000 200 stack_ok
      sample_listening).state.poll_time = 200 := by rw [hp.1]; decide
  have hacc := accept_registers_connection _ 1 hfree
  refine ⟨hfree, hpoll, hacc.1, ?_, by decide⟩
  rw [hacc.2.2.1, hpoll]

/-- The connection state after `end_con`: only the active handle is cleared. -/
theorem end_con_state (close_res : err_t) (w : SPNetworking) :
    (end_con close_res w).2.state = { w.state with remote_pcb := none } := by
  unfold end_con
  split
  · next hnone =>
    show w.state = _
    cases hw : w.state
    simp_all
  · by_cases hc : close_res = ERR_OK <;> simp [SPNetworking.call, hc]

/-- The call log after `end_con` extends the log before it. -/
theorem end_con_calls (close_res : err_t) (w : SPNetworking) :
    ∃ rest, (end_con close_res w).2.lwip_calls = w.lwip_calls ++ rest := by
  unfold end_con
  split
  · exact ⟨[], by simp⟩
  · by_cases hc : close_res = ERR_OK
    · exact ⟨_, by simp [SPNetworking.call, hc]; rfl⟩
    · exact ⟨_, by simp [SPNetworking.call, hc]; rfl⟩

/-- The teardown with an active handle: `end_con` deregisters the argument and
the four callbacks, calls `tcp_close`, calls `tcp_abort` when the close fails,
and returns what the close answered. -/
theorem end_con_some (close_res : err_t) (w : SPNetworking) (pcb : Nat)
    (hpcb : w.state.remote_pcb = some pcb) :
    (end_con close_res w).1 = close_res ∧
    (end_con close_res w).2.lwip_calls = w.lwip_calls ++
      [LwipCall.tcp_arg (some pcb) false,
       LwipCall.tcp_poll (some pcb) none 0,
       LwipCall.tcp_sent (some pcb) none,
       LwipCall.tcp_recv (some pcb) none,
       LwipCall.tcp_err (some pcb) none,
       LwipCall.tcp_close (some pcb)] ++
      (if close_res = ERR_OK then [] else [LwipCall.tcp_abort (some pcb)]) := by
  unfold end_con
  rw [hpcb]
  by_cases hc : close_res = ERR_OK <;> simp [SPNetworking.call, hc]

/-- The teardown without an active handle does nothing and returns Ok. -/
theorem end_con_none (close_res : err_t) (w : SPNetworking)
    (hpcb : w.state.remote_pcb = none) : end_con close_res w = (ERR_OK, w) := by
  unfold end_con
  rw [hpcb]

/-- C16: for every state and every answer of the orderly close, after the
poll/timeout handler `error` is Timeout, after the fatal-error handler with
code `e` `error` is `e`, and in both cases the connection is torn down: the
active handle is cleared, every other field of the connection state (both
buffers, `recv_len`, `has_incoming`) is unchanged, and when a handle was
active the stack is asked, in this order, to drop the argument and the four
callbacks of that handle and to close it, and to abort it when the close
fails; when no handle was active no call is made.  The poll/timeout handler
returns what the close answered, Ok when no handle was active. -/
theorem teardown_handlers_effect (w : SPNetworking) (e close_res : err_t) :
    ((tcp_con_poll close_res w).2.state.error = ERR_TIMEOUT ∧
      (tcp_con_poll close_res w).2.state.remote_pcb = none ∧
      (tcp_con_poll close_res w).2.state.buffer_recv = w.state.buffer_recv ∧
      (tcp_con_poll close_res w).2.state.buffer_sent = w.state.buffer_sent ∧
      (tcp_con_poll close_res w).2.state.recv_len = w.state.recv_len ∧
      (tcp_con_poll close_res w).2.state.incoming = w.state.incoming) ∧
    ((tcp_con_err e close_res w).state.error = e ∧
      (tcp_con_err e close_res w).state.remote_pcb = none ∧
      (tcp_con_err e close_res w).state.buffer_recv = w.state.buffer_recv ∧
      (tcp_con_err e close_res w).state.buffer_sent = w.state.buffer_sent ∧
      (tcp_con_err e close_res w).state.recv_len = w.state.recv_len ∧
      (tcp_con_err e close_res w).state.incoming = w.state.incoming) ∧
    ((tcp_con_poll close_res w).2.state =
        { w.state with error := ERR_TIMEOUT, remote_pcb := none } ∧
      (tcp_con_err e close_res w).state = { w.state with error := e, remote_pcb := none }) ∧
    (∀ pcb, w.state.remote_pcb = some pcb →
      (tcp_con_poll close_res w).1 = close_res ∧
      (tcp_con_poll close_res w).2.lwip_calls = w.lwip_calls ++
        [LwipCall.tcp_arg (some pcb) false,
         LwipCall.tcp_poll (some pcb) none 0,
         LwipCall.tcp_sent (some pcb) none,
         LwipCall.tcp_recv (some pcb) none,
         LwipCall.tcp_err (some pcb) none,
         LwipCall.tcp_close (some pcb)] ++
        (if close_res = ERR_OK then [] else [LwipCall.tcp_abort (some pcb)]) ∧
      (tcp_con_err e close_res w).lwip_calls = w.lwip_calls ++
        [LwipCall.tcp_arg (some pcb) false,
         LwipCall.tcp_poll (some pcb) none 0,
         LwipCall.tcp_sent (some pcb) none,
         LwipCall.tcp_recv (some pcb) none,
         LwipCall.tcp_err (some pcb) none,
         LwipCall.tcp_close (some pcb)] ++
        (if close_res = ERR_OK then [] else [LwipCall.tcp_abort (some pcb)])) ∧
    (w.state.remote_pcb = none →
      (tcp_con_poll close_res w).1 = ERR_OK ∧
      (tcp_con_poll close_res w).2.lwip_calls = w.lwip_calls ∧
      (tcp_con_err e close_res w).lwip_calls = w.lwip_calls) := by
  refine ⟨?_, ?_, ⟨?_, ?_⟩, ?_, ?_⟩
  · simp only [tcp_con_poll]
    rw [end_con_state]
    simp
  · simp only [tcp_con_err]
    rw [end_con_state]
    simp
  · simp only [tcp_con_poll]
    rw [end_con_state]
  · simp only [tcp_con_err]
    rw [end_con_state]
  · intro pcb hpcb
    have hp := end_con_some close_res
      { w with state := { w.state with error := ERR_TIMEOUT } } pcb hpcb
    have he := end_con_some close_res { w with state := { w.state with error := e } } pcb hpcb
    exact ⟨hp.1, hp.2, he.2⟩
  · intro hpcb
    have hp := end_con_none close_res
      { w with state := { w.state with error := ERR_TIMEOUT } } hpcb
    have he := end_con_none close_res { w with state := { w.state with error := e } } hpcb
    simp only [tcp_con_poll, tcp_con_err]
    rw [hp, he]
    exact ⟨rfl, rfl, rfl⟩

/-- C16, witness: the poll/timeout handler and the fatal-error handler with a
reset, on the sample connection on block 1, when the orderly close fails: the
five deregistrations, the close and the abort are the calls made. -/
theorem teardown_handlers_effect_witness :
    (tcp_con_poll ERR_MEM (sample 0 0 ERR_OK)).1 = ERR_MEM ∧
    (tcp_con_poll ERR_MEM (sample 0 0 ERR_OK)).2.lwip_calls =
      (sample 0 0 ERR_OK).lwip_calls ++
        [LwipCall.tcp_arg (some 1) false,
         LwipCall.tcp_poll (some 1) none 0,
         LwipCall.tcp_sent (some 1) none,
         LwipCall.tcp_recv (some 1) none,
         LwipCall.tcp_err (some 1) none,
         LwipCall.tcp_close (some 1)] ++
        (if ERR_MEM = ERR_OK then [] else [LwipCall.tcp_abort (some 1)]) ∧
    (tcp_con_err ERR_RST ERR_MEM (sample 0 0 ERR_OK)).lwip_calls =
      (sample 0 0 ERR_OK).lwip_calls ++
        [LwipCall.tcp_arg (some 1) false,
         LwipCall.tcp_poll (some 1) none 0,
         LwipCall.tcp_sent (some 1) none,
         LwipCall.tcp_recv (some 1) none,
         LwipCall.tcp_err (some 1) none,
         LwipCall.tcp_close (some 1)] ++
        (if ERR_MEM = ERR_OK then [] else [LwipCall.tcp_abort (some 1)]) :=
  (teardown_handlers_effect (sample 0 0 ERR_OK) ERR_RST ERR_MEM).2.2.2.1 1 rfl

/-- C17: for every state and every reported code `e`, Ok included, a null
delivery returns `e`, sets `error` to `e` and changes nothing else: both
buffers, `recv_len`, `has_incoming`, the active handle and the call log are as
before. -/
theorem null_delivery_records_code (w : SPNetworking) (tpcb : Option Nat) (e : err_t) :
    (tcp_con_recv tpcb none e w).1 = e ∧
    (tcp_con_recv tpcb none e w).2.state.error = e ∧
    (tcp_con_recv tpcb none e w).2 = { w with state := { w.state with error := e } } ∧
    (tcp_con_recv tpcb none e w).2.state.buffer_recv = w.state.buffer_recv ∧
    (tcp_con_recv tpcb none e w).2.state.recv_len = w.state.recv_len ∧
    (tcp_con_recv tpcb none e w).2.state.incoming = w.state.incoming ∧
    (tcp_con_recv tpcb none e w).2.state.remote_pcb = w.state.remote_pcb :=
  ⟨rfl, rfl, rfl, rfl, rfl, rfl, rfl⟩


/-! ## What send leaves in the buffer -/

theorem memcpy_getElem_tail (dst src : List Nat) (n i : Nat) (hn : n ≤ src.length)
    (hi : n ≤ i) : (memcpy dst src n)[i]? = dst[i]? := by
  have hlen : (src.take n).length = n := by rw [List.length_take]; omega
  simp only [memcpy, store, List.take_zero, List.nil_append, Nat.zero_add, hlen]
  rw [List.getElem?_append_right (by omega), hlen, List.getElem?_drop]
  congr 1
  omega

theorem memcpy_getElem_head (dst src : List Nat) (n i : Nat) (hn : n ≤ src.length)
    (hi : i < n) : (memcpy dst src n)[i]? = src[i]? := by
  have hlen : (src.take n).length = n := by rw [List.length_take]; omega
  simp only [memcpy, store, List.take_zero, List.nil_append, Nat.zero_add, hlen]
  rw [List.getElem?_append_left (by omega), List.getElem?_take_of_lt hi]

/-- The send buffer after an accepted `send`, whatever the write answers. -/
theorem send_buffer_sent (m : List Nat) (write_res close_res : err_t) (w : SPNetworking)
    (h : strlen m ≤ BUF_SIZE) :
    (send m write_res close_res w).2.state.buffer_sent =
      memcpy w.state.buffer_sent m (strlen m) := by
  have hnot : ¬ (strlen m > BUF_SIZE) := by omega
  simp only [send, hnot, if_false]
  split
  · rw [end_con_state]
    rfl
  · rfl

/-- The call log after an accepted `send`: the write of the first `BUF_SIZE`
bytes of the send buffer, then the calls of the teardown if the write failed. -/
theorem send_calls (m : List Nat) (write_res close_res : err_t) (w : SPNetworking)
    (h : strlen m ≤ BUF_SIZE) :
    ∃ rest, (send m write_res close_res w).2.lwip_calls = w.lwip_calls ++
      LwipCall.tcp_write w.state.remote_pcb
        ((memcpy w.state.buffer_sent m (strlen m)).take BUF_SIZE) BUF_SIZE :: rest := by
  have hnot : ¬ (strlen m > BUF_SIZE) := by omega
  simp only [send, hnot, if_false]
  split
  · obtain ⟨rest, hrest⟩ := end_con_calls close_res
      { ({ w with state := { w.state with
              buffer_sent := memcpy w.state.buffer_sent m (strlen m) } }).call
          [LwipCall.tcp_write w.state.remote_pcb
            ((memcpy w.state.buffer_sent m (strlen m)).take BUF_SIZE) BUF_SIZE] with
        state := { w.state with
          buffer_sent := memcpy w.state.buffer_sent m (strlen m), error := write_res } }
    refine ⟨rest, ?_⟩
    simp only [SPNetworking.call] at hrest ⊢
    rw [hrest]
    simp
  · exact ⟨[], by simp [SPNetworking.call]⟩

/-- C18: for every message `m` with `len(m) <= BUF_SIZE` and every answer of
the stack, `send(m)` leaves every byte of `send_buffer` at an index `>= len(m)`
as it was, and the frame it hands to the stack holds, at every index from
`len(m)` up to `BUF_SIZE - 1`, the byte `send_buffer` held there before the
call. -/
theorem send_keeps_tail (w : SPNetworking) (m : List Nat) (write_res close_res : err_t)
    (hlen : m.length ≤ BUF_SIZE) :
    (∀ i, m.length ≤ i →
      (send m write_res close_res w).2.state.buffer_sent[i]? = w.state.buffer_sent[i]?) ∧
    ∃ frame rest, (send m write_res close_res w).2.lwip_calls = w.lwip_calls ++
        LwipCall.tcp_write w.state.remote_pcb frame BUF_SIZE :: rest ∧
      ∀ i, m.length ≤ i → i < BUF_SIZE → frame[i]? = w.state.buffer_sent[i]? := by
  have hs : strlen m ≤ m.length := strlen_le_length m
  have hb : strlen m ≤ BUF_SIZE := by omega
  refine ⟨?_, ?_⟩
  · intro i hi
    rw [send_buffer_sent m write_res close_res w hb]
    exact memcpy_getElem_tail _ _ _ _ hs (by omega)
  · obtain ⟨rest, hrest⟩ := send_calls m write_res close_res w hb
    refine ⟨_, rest, hrest, ?_⟩
    intro i hi hlt
    rw [List.getElem?_take_of_lt hlt]
    exact memcpy_getElem_tail _ _ _ _ hs (by omega)

/-- C18, witness: the one-byte message 65 sent on a connection whose send
buffer still holds bytes of value 7. -/
theorem send_keeps_tail_witness :
    (∀ i, [65].length ≤ i →
      (send [65] ERR_OK ERR_OK (sample 7 0 ERR_OK)).2.state.buffer_sent[i]? =
        (sample 7 0 ERR_OK).state.buffer_sent[i]?) ∧
    ∃ frame rest, (send [65] ERR_OK ERR_OK (sample 7 0 ERR_OK)).2.lwip_calls =
        (sample 7 0 ERR_OK).lwip_calls ++
          LwipCall.tcp_write (sample 7 0 ERR_OK).state.remote_pcb frame BUF_SIZE :: rest ∧
      ∀ i, [65].length ≤ i → i < BUF_SIZE → frame[i]? = (sample 7 0 ERR_OK).state.buffer_sent[i]? :=
  send_keeps_tail (sample 7 0 ERR_OK) [65] ERR_OK ERR_OK (by decide)

/-- A shorter message sent after a longer one carries the tail of the longer
one: when the first message holds no zero byte, the send buffer after the
second send holds the bytes of the first at every index from the length of the
second up to the length of the first. -/
theorem send_short_after_long (w : SPNetworking) (m1 m2 : List Nat)
    (wr1 cr1 wr2 cr2 : err_t) (hz1 : ∀ b ∈ m1, b ≠ 0) (h1 : m1.length ≤ BUF_SIZE) :
    ∀ i, m2.length ≤ i → i < m1.length →
      (send m2 wr2 cr2 (send m1 wr1 cr1 w).2).2.state.buffer_sent[i]? = m1[i]? := by
  intro i hi hlt
  have hs1 : strlen m1 = m1.length := strlen_eq_length m1 hz1
  have hs2 : strlen m2 ≤ m2.length := strlen_le_length m2
  rw [send_buffer_sent m2 wr2 cr2 _ (by omega),
    memcpy_getElem_tail _ _ _ _ hs2 (by omega),
    send_buffer_sent m1 wr1 cr1 w (by omega), hs1]
  exact memcpy_getElem_head _ _ _ _ (le_refl _) hlt

/-! ## Writes past the arrays of the adapter -/

/-- The length of the caller-visible buffer after `read()`: the declared size
while fewer than `BUF_SIZE` bytes are pending. -/
theorem read_tmp_buf_length (w : SPNetworking) (herr : w.state.error = ERR_OK)
    (hr : w.state.recv_len < BUF_SIZE) (hsz : w.sized) :
    (read w).2.tmp_buf.length = BUF_SIZE := by
  obtain ⟨_, hrecv, htmp⟩ := hsz
  obtain ⟨_, hbuf⟩ := read_tmp_buf w herr (by omega)
  rw [hbuf]
  simp only [List.length_append, List.length_take, List.length_cons, List.length_drop]
  omega

/-- C19, the code at the failing input: `error` is Ok, the arrays have their
declared sizes and the receive buffer is completely full,
`recv_len = BUF_SIZE`.  The `memset` of `recv_len + 1` bytes in `read()` covers
`BUF_SIZE + 1` bytes, one more than `tmp_buf` holds, and the caller-visible
buffer ends up one byte longer than its declared size. -/
theorem read_full_buffer_overflows :
    (sample 0 BUF_SIZE ERR_OK).state.error = ERR_OK ∧
    (sample 0 BUF_SIZE ERR_OK).state.recv_len ≤ BUF_SIZE ∧
    (sample 0 BUF_SIZE ERR_OK).sized ∧
    (memset (sample 0 BUF_SIZE ERR_OK).tmp_buf 0
      ((sample 0 BUF_SIZE ERR_OK).state.recv_len + 1)).length = BUF_SIZE + 1 ∧
    (read (sample 0 BUF_SIZE ERR_OK)).2.tmp_buf.length = BUF_SIZE + 1 := by
  refine ⟨rfl, by decide, ?_, ?_, ?_⟩
  · simp [-List.reduceReplicate, SPNetworking.sized, sample]
  · simp [-List.reduceReplicate, memset, store, sample, BUF_SIZE]
  · rw [(read_tmp_buf (sample 0 BUF_SIZE ERR_OK) rfl
      (by simp [-List.reduceReplicate, sample])).2]
    simp [-List.reduceReplicate, sample, BUF_SIZE]

/-- The address field after construction, once the driver is up: the `strcpy`
of the address string into the field as it was. -/
theorem construct_ip_adr (mode : NET_MODE_T) (ip : List Nat) (port poll : Int)
    (env : StackInit) (raw : SPNetworking) (hinit : env.arch_init = 0) :
    (SPNetworking.construct mode ip port poll env raw).ip_adr = strcpy raw.ip_adr ip := by
  unfold SPNetworking.construct
  cases mode with
  | SERVER_MODE =>
    by_cases h1 : env.new_pcb = none <;> by_cases h2 : env.bind_res = 0 <;>
      by_cases h3 : env.listen_pcb = none <;> simp [SPNetworking.call, hinit, h1, h2, h3]
  | CLIENT_MODE =>
    by_cases h1 : env.new_pcb = none <;> simp [SPNetworking.call, hinit, h1]

/-- An address string of at most 14 characters, terminator included, fits in
the 15 bytes of `ip_adr`. -/
theorem construct_ip_adr_fits (mode : NET_MODE_T) (ip : List Nat) (port poll : Int)
    (env : StackInit) (raw : SPNetworking) (hinit : env.arch_init = 0)
    (hraw : raw.ip_adr.length = 15) (hip : strlen ip ≤ 14) :
    (SPNetworking.construct mode ip port poll env raw).ip_adr.length = 15 := by
  have hs := strlen_le_length ip
  rw [construct_ip_adr mode ip port poll env raw hinit]
  unfold strcpy
  rw [store_length _ _ _ (by simp [List.length_take]; omega), hraw]

/-- C20, the code at the failing input: the adapter is constructed with the
address 192.168.100.100, a dotted quad of fifteen characters, and its address
field has the declared fifteen bytes.  The `strcpy` writes the fifteen
characters and the terminator, sixteen bytes: the field ends up one byte
longer than its declared size. -/
theorem construct_ip_adr_overflows :
    strlen dotted_quad_15 = 15 ∧
    (sample 0 0 ERR_OK).ip_adr.length = 15 ∧
    (SPNetworking.construct NET_MODE_T.SERVER_MODE dotted_quad_15 5000 5 stack_ok
      (sample 0 0 ERR_OK)).ip_adr.length = 16 := by
  refine ⟨by decide, by decide, ?_⟩
  rw [construct_ip_adr _ _ _ _ _ _ rfl]
  decide


end SPNet
